import Mathlib

/-!
Verification of the authentication / authorization core of the sales_automation
backend.  The definitions below are a shallow embedding of the Python source
under src/backend/src (models/user.py, auth/password_security.py, auth/rbac.py,
auth/refresh_token.py, auth/token_blacklist.py, auth/authentication.py,
api/auth_endpoints.py, repositories/user_repository.py).  Time is modelled as a
natural number of minutes, database state as explicit lists of rows, and
fallible Python code as Except-valued functions.  Strings are treated as ASCII,
so Python's str.isupper / str.islower / str.isdigit coincide with Lean's
Char.isUpper / Char.isLower / Char.isDigit.
-/

set_option maxHeartbeats 1600000

namespace SalesAuto

/-- Python runtime errors that the embedded code can raise: attribute access on
an object that does not define the attribute, and ValueError as raised by an
Enum constructor on an unknown value. -/
inductive PyError where
  | attributeError (cls attr : String)
  | valueError (msg : String)
  deriving Repr, DecidableEq

/-! ## Password policy (src/backend/src/auth/password_security.py) -/

/-- Constant PasswordValidator.MIN_LENGTH. -/
def MIN_LENGTH : Nat := 8

/-- Constant PasswordValidator.REQUIRE_UPPERCASE. -/
def REQUIRE_UPPERCASE : Bool := true

/-- Constant PasswordValidator.REQUIRE_LOWERCASE. -/
def REQUIRE_LOWERCASE : Bool := true

/-- Constant PasswordValidator.REQUIRE_DIGITS. -/
def REQUIRE_DIGITS : Bool := true

/-- Constant PasswordValidator.REQUIRE_SPECIAL_CHARS. -/
def REQUIRE_SPECIAL_CHARS : Bool := true

/-- Constant PasswordValidator.SPECIAL_CHARS (the two brace characters are
written with character escapes). -/
def SPECIAL_CHARS : String := "!@#$%^&*()_+-=[]\x7b\x7d|;:,.<>?/~`"

/-- Embedding of PasswordValidator.validate_password: checks the five rules in
source order, appending one message per violated rule, and returns
(len(errors) == 0, errors). -/
def validate_password (password : String) : Bool × List String :=
  let errors : List String :=
    (if password.length < MIN_LENGTH then
        ["Password must be at least 8 characters long"] else []) ++
    (if REQUIRE_UPPERCASE && !(password.toList.any (fun c => c.isUpper)) then
        ["Password must contain at least one uppercase letter"] else []) ++
    (if REQUIRE_LOWERCASE && !(password.toList.any (fun c => c.isLower)) then
        ["Password must contain at least one lowercase letter"] else []) ++
    (if REQUIRE_DIGITS && !(password.toList.any (fun c => c.isDigit)) then
        ["Password must contain at least one digit"] else []) ++
    (if REQUIRE_SPECIAL_CHARS &&
        !(password.toList.any (fun c => SPECIAL_CHARS.toList.contains c)) then
        ["Password must contain at least one special character"] else [])
  (errors.length == 0, errors)

/-- Models the external passlib CryptContext (bcrypt): hashing is a one-way
encoding and verification succeeds exactly when the hash was derived from the
candidate password (contract of PasswordValidator.hash_password /
verify_password). -/
def hash_password (password : String) : String :=
  "bcrypt$" ++ password

/-- Models PasswordValidator.verify_password over the hash model above. -/
def verify_password (plain hashed : String) : Bool :=
  hashed == hash_password plain

/-! ## Role / permission data model (src/backend/src/models/user.py) -/

/-- Row of the role_permission join table (class RolePermission).  It carries
only role_id and permission_id (plus the BaseModel housekeeping columns); in
particular it has no name attribute. -/
structure RolePermission where
  role_id : Nat
  permission_id : Nat
  deriving Repr, DecidableEq

/-- Attributes defined on RolePermission instances: the BaseModel columns
(id, created_at, updated_at, is_active) plus role_id, permission_id and the two
relationships role and permission.  There is no name attribute. -/
def rolePermissionAttrs : List String :=
  ["id", "created_at", "updated_at", "is_active",
   "role_id", "permission_id", "role", "permission"]

/-- Row of the role table (class Role).  Its permissions relationship yields
RolePermission link rows (models/user.py line 119), not Permission rows. -/
structure Role where
  name : String
  permissions : List RolePermission
  deriving Repr, DecidableEq

/-- Row of the user table (class User); only the columns the authentication
core reads or writes are modelled.  locked_until = none models NULL. -/
structure User where
  id : Nat
  username : String
  email : String
  hashed_password : String
  is_active : Bool
  login_attempts : Nat
  locked_until : Option Nat
  last_login : Option Nat
  roles : List Role
  deriving Repr, DecidableEq

/-- Embedding of the User.is_locked property: False when locked_until is NULL,
otherwise locked_until > now. -/
def User.is_locked (now : Nat) (u : User) : Bool :=
  match u.locked_until with
  | none => false
  | some t => now < t

/-- Embedding of User.increment_login_attempts: adds one to the counter and,
when the new counter is at least 5, sets locked_until to now + 30 minutes. -/
def User.increment_login_attempts (now : Nat) (u : User) : User :=
  let attempts := u.login_attempts + 1
  { u with
    login_attempts := attempts
    locked_until := if 5 ≤ attempts then some (now + 30) else u.locked_until }

/-- Embedding of User.reset_login_attempts: zeroes the counter and clears the
lock. -/
def User.reset_login_attempts (u : User) : User :=
  { u with login_attempts := 0, locked_until := none }

/-- Embedding of User.record_login: stamps last_login and then resets the
counter via reset_login_attempts. -/
def User.record_login (now : Nat) (u : User) : User :=
  User.reset_login_attempts { u with last_login := some now }

/-- Account-state invariant of claim C7: whenever the lock-until timestamp is
set, the failed-attempt counter is at least the lockout threshold of 5. -/
def lockInvariant (u : User) : Prop :=
  ∀ t, u.locked_until = some t → 5 ≤ u.login_attempts

/-! ## RBAC (src/backend/src/auth/rbac.py) -/

/-- Enum ResourceType with its seven members. -/
inductive ResourceType where
  | USER
  | CONTACT
  | LEAD
  | OPPORTUNITY
  | CAMPAIGN
  | REPORT
  | SETTING
  deriving Repr, DecidableEq

/-- String value of each ResourceType member. -/
def ResourceType.value : ResourceType → String
  | .USER => "user"
  | .CONTACT => "contact"
  | .LEAD => "lead"
  | .OPPORTUNITY => "opportunity"
  | .CAMPAIGN => "campaign"
  | .REPORT => "report"
  | .SETTING => "setting"

/-- The list of string values of the ResourceType enum. -/
def resourceTypeValues : List String :=
  ["user", "contact", "lead", "opportunity", "campaign", "report", "setting"]

/-- Embedding of the Python enum constructor ResourceType(s): returns the
member whose value is s, or raises ValueError when s is not one of the seven
values. -/
def ResourceType.fromValue (s : String) : Except PyError ResourceType :=
  if s == "user" then .ok .USER
  else if s == "contact" then .ok .CONTACT
  else if s == "lead" then .ok .LEAD
  else if s == "opportunity" then .ok .OPPORTUNITY
  else if s == "campaign" then .ok .CAMPAIGN
  else if s == "report" then .ok .REPORT
  else if s == "setting" then .ok .SETTING
  else .error (.valueError (s ++ " is not a valid ResourceType"))

/-- Enum ActionType with its eight members. -/
inductive ActionType where
  | CREATE
  | READ
  | UPDATE
  | DELETE
  | EXPORT
  | IMPORT
  | ASSIGN
  | CONVERT
  deriving Repr, DecidableEq

/-- String value of each ActionType member. -/
def ActionType.value : ActionType → String
  | .CREATE => "create"
  | .READ => "read"
  | .UPDATE => "update"
  | .DELETE => "delete"
  | .EXPORT => "export"
  | .IMPORT => "import"
  | .ASSIGN => "assign"
  | .CONVERT => "convert"

/-- Embedding of the Python attribute read permission.name inside
RBACHandler.has_permission.  The loop variable ranges over role.permissions,
whose elements are RolePermission link rows (models/user.py line 119); since
RolePermission defines no name attribute (see rolePermissionAttrs), the read
raises AttributeError. -/
def RolePermission.getName (_rp : RolePermission) : Except PyError String :=
  if "name" ∈ rolePermissionAttrs then .ok ""
  else .error (.attributeError "RolePermission" "name")

/-- Inner loop of RBACHandler.has_permission over one role's permissions:
compares permission.name with the requested permission_name, propagating the
AttributeError of the attribute read. -/
def permLoop (permission_name : String) :
    List RolePermission → Except PyError Bool
  | [] => .ok false
  | rp :: rest => do
      let n ← rp.getName
      if n == permission_name then
        .ok true
      else
        permLoop permission_name rest

/-- Outer loop of RBACHandler.has_permission over the user's roles. -/
def roleLoop (permission_name : String) : List Role → Except PyError Bool
  | [] => .ok false
  | role :: rest => do
      if (← permLoop permission_name role.permissions) then
        .ok true
      else
        roleLoop permission_name rest

/-- Embedding of RBACHandler.has_permission: True at once when some held role
is named admin, otherwise scans each role's permission link rows comparing
their (absent) name attribute against "resource:action". -/
def has_permission (user : User) (resource : ResourceType)
    (action : ActionType) : Except PyError Bool :=
  if user.roles.any (fun role => role.name == "admin") then .ok true
  else
    let permission_name := resource.value ++ ":" ++ action.value
    roleLoop permission_name user.roles

/-- Business object as seen by RBACHandler.has_object_permission: its declared
table name plus the optional owner_id / created_by / protected attributes
(none models hasattr(obj, a) == False). -/
structure ObjRecord where
  tablename : String
  owner_id : Option Nat
  created_by : Option Nat
  protected_attr : Option Bool
  deriving Repr, DecidableEq

/-- Embedding of RBACHandler.has_object_permission: admin role, then owner,
then creator, then manager (with the protected-object DELETE exception), and
finally the fallback ResourceType(obj.__tablename__) feeding has_permission. -/
def has_object_permission (user : User) (obj : ObjRecord)
    (action : ActionType) : Except PyError Bool :=
  if user.roles.any (fun role => role.name == "admin") then .ok true
  else if obj.owner_id == some user.id then .ok true
  else if obj.created_by == some user.id then .ok true
  else if user.roles.any (fun role => role.name == "manager") then
    match action, obj.protected_attr with
    | .DELETE, some p => .ok (!p)
    | _, _ => .ok true
  else do
    let resource_type ← ResourceType.fromValue obj.tablename
    has_permission user resource_type action

/-! ## JWT model (external jose library used by auth/authentication.py) -/

/-- Constant ACCESS_TOKEN_EXPIRE_MINUTES from config/settings.py (default 30). -/
def ACCESS_TOKEN_EXPIRE_MINUTES : Nat := 30

/-- Constant REFRESH_TOKEN_EXPIRE_DAYS, imported by auth/authentication.py and
auth/refresh_token.py from config.settings (the settings module itself does not
define it; no claim depends on the value, fixed here at 30 days, measured in
minutes below). -/
def REFRESH_TOKEN_EXPIRE_DAYS : Nat := 30

/-- Claims carried by an access token: subject id, expiry, issued-at and the
unique jti, as assembled by create_access_token. -/
structure JwtClaims where
  sub : Nat
  exp : Nat
  iat : Nat
  jti : Nat
  deriving Repr, DecidableEq

/-- Token strings as presented on the wire.  Because jose signatures are
unforgeable, a string either is a JWT validly signed with the server
SECRET_KEY and so carries claims (constructor jwt), or it is any other string
(constructor raw) — in particular the opaque refresh-token values produced by
secrets.token_urlsafe.  Equality of Tok values models string equality. -/
inductive Tok where
  | jwt (c : JwtClaims)
  | raw (s : String)
  deriving Repr, DecidableEq

/-- Models jose jwt.decode with the server SECRET_KEY: succeeds exactly on
validly signed strings whose expiry lies in the future (jose raises
ExpiredSignatureError, a JWTError, on an expired token). -/
def jwtDecode (now : Nat) : Tok → Option JwtClaims
  | .jwt c => if now < c.exp then some c else none
  | .raw _ => none

/-! ## Database rows and state -/

/-- Row of the refresh_token table (class RefreshToken in
auth/refresh_token.py). -/
structure RefreshToken where
  token : Tok
  user_id : Nat
  expires_at : Nat
  is_revoked : Bool
  deriving Repr, DecidableEq

/-- Embedding of the RefreshToken.is_expired property:
datetime.utcnow() > expires_at. -/
def RefreshToken.is_expired (now : Nat) (r : RefreshToken) : Bool :=
  r.expires_at < now

/-- Row of the token_blacklist table (class TokenBlacklist in
auth/token_blacklist.py). -/
structure TokenBlacklist where
  token : Tok
  token_type : String
  expires_at : Nat
  is_revoked : Bool
  deriving Repr, DecidableEq

/-- Row of the audit_log table as written by AuditLogger.log_activity
(auth/audit_logging.py); only the fields the claims mention are kept. -/
structure AuditRow where
  user_id : Option Nat
  action : String
  resource_type : String
  resource_id : Option Nat
  descr : Option String
  ip_address : Option String
  user_agent : Option String
  deriving Repr, DecidableEq

/-- Whole persistent state threaded through the embedded operations. -/
structure DB where
  users : List User
  refresh_tokens : List RefreshToken
  blacklist : List TokenBlacklist
  audit_log : List AuditRow
  deriving Repr, DecidableEq

/-- Embedding of AuditLogger.log_activity: appends one audit_log row. -/
def log_activity (db : DB) (user_id : Option Nat) (action : String)
    (resource_type : String) (resource_id : Option Nat)
    (descr : Option String) (ip : Option String := none)
    (ua : Option String := none) : DB :=
  { db with audit_log :=
      db.audit_log ++ [⟨user_id, action, resource_type, resource_id, descr, ip, ua⟩] }

/-! ## Repositories -/

namespace user_repository

/-- Embedding of UserRepository.get_by_username: first user row with the given
username. -/
def get_by_username (db : DB) (username : String) : Option User :=
  db.users.find? (fun u => u.username == username)

/-- Embedding of UserRepository.get_by_email: first user row with the given
email. -/
def get_by_email (db : DB) (email : String) : Option User :=
  db.users.find? (fun u => u.email == email)

/-- Embedding of BaseRepository.get: first user row with the given id. -/
def get (db : DB) (id : Nat) : Option User :=
  db.users.find? (fun u => u.id == id)

/-- Embedding of BaseRepository.update applied to a user's hashed_password, as
done by the change-password and reset-password endpoints: mutates the row of
the given user in place. -/
def update_hashed_password (db : DB) (uid : Nat) (h : String) : DB :=
  { db with users :=
      db.users.map (fun u => if u.id == uid then { u with hashed_password := h } else u) }

/-- Attribute names defined on UserRepository instances: the BaseRepository
methods plus UserRepository's own methods (src/backend/src/repositories/
base.py and user_repository.py).  Neither create_password_reset_token nor
verify_password_reset_token is defined. -/
def attrs : List String :=
  ["model", "create", "get", "get_multi", "update", "delete", "count", "exists",
   "get_by_email", "get_by_username", "get_by_email_or_username",
   "get_active_users", "add_role_to_user", "remove_role_from_user"]

end user_repository

/-- Python attribute access on the user_repository singleton: raises
AttributeError when the named attribute is not defined on UserRepository. -/
def userRepositoryGetAttr (attr : String) : Except PyError Unit :=
  if attr ∈ user_repository.attrs then .ok ()
  else .error (.attributeError "UserRepository" attr)

namespace RefreshTokenRepository

/-- Embedding of RefreshTokenRepository.create: appends a fresh non-revoked
row whose opaque value is the (externally generated) fresh token and whose
expiry is now + REFRESH_TOKEN_EXPIRE_DAYS. -/
def create (db : DB) (user_id : Nat) (now : Nat) (fresh : Tok) :
    RefreshToken × DB :=
  let row : RefreshToken :=
    { token := fresh
      user_id := user_id
      expires_at := now + REFRESH_TOKEN_EXPIRE_DAYS * 24 * 60
      is_revoked := false }
  (row, { db with refresh_tokens := db.refresh_tokens ++ [row] })

/-- Embedding of RefreshTokenRepository.get_by_token: first row with the given
token value that is not revoked. -/
def get_by_token (db : DB) (token : Tok) : Option RefreshToken :=
  db.refresh_tokens.find? (fun r => r.token == token && !r.is_revoked)

/-- Helper for revoke: marks the first non-revoked row with the given token
value revoked, returning the marked row and the updated list. -/
def revokeFirst : List RefreshToken → Tok → Option RefreshToken × List RefreshToken
  | [], _ => (none, [])
  | r :: rest, token =>
    if r.token == token && !r.is_revoked then
      (some { r with is_revoked := true }, { r with is_revoked := true } :: rest)
    else
      let (o, rest') := revokeFirst rest token
      (o, r :: rest')

/-- Embedding of RefreshTokenRepository.revoke: looks the token up through
get_by_token and, when found, sets its is_revoked flag; returns the revoked
row (or None) and the updated state. -/
def revoke (db : DB) (token : Tok) : Option RefreshToken × DB :=
  let (o, rows) := revokeFirst db.refresh_tokens token
  (o, { db with refresh_tokens := rows })

/-- Embedding of RefreshTokenRepository.revoke_all_for_user: marks every
non-revoked row of the user revoked and returns how many rows were in that
(previously non-revoked) set. -/
def revoke_all_for_user (db : DB) (user_id : Nat) : Nat × DB :=
  let tokens := db.refresh_tokens.filter
    (fun r => r.user_id == user_id && !r.is_revoked)
  let rows := db.refresh_tokens.map
    (fun r => if r.user_id == user_id && !r.is_revoked then
        { r with is_revoked := true } else r)
  (tokens.length, { db with refresh_tokens := rows })

end RefreshTokenRepository

namespace TokenBlacklistRepository

/-- Embedding of TokenBlacklistRepository.create: appends a blacklist row with
is_revoked = True. -/
def create (db : DB) (token : Tok) (token_type : String)
    (expires_at : Nat) : DB :=
  { db with blacklist :=
      db.blacklist ++ [⟨token, token_type, expires_at, true⟩] }

/-- Embedding of TokenBlacklistRepository.is_blacklisted: membership test by
token value among rows whose is_revoked flag is set (no expiry filter). -/
def is_blacklisted (db : DB) (token : Tok) : Bool :=
  db.blacklist.any (fun r => r.token == token && r.is_revoked)

end TokenBlacklistRepository

/-! ## Authentication flows (src/backend/src/auth/authentication.py and
src/backend/src/api/auth_endpoints.py) -/

/-- Embedding of authenticate_user: looks the user up by username, verifies
the password, and writes the corresponding audit row.  It performs no lockout
check and never touches login_attempts or locked_until. -/
def authenticate_user (db : DB) (username password : String) :
    Option User × DB :=
  match user_repository.get_by_username db username with
  | none => (none, db)
  | some user =>
    if !(verify_password password user.hashed_password) then
      (none, log_activity db (some user.id) "login_failed" "user"
        (some user.id) (some "Failed login attempt"))
    else
      (some user, log_activity db (some user.id) "login" "user"
        (some user.id) (some "Successful login"))

/-- Embedding of create_access_token for the data {sub: str(user.id)} with the
default expiry: claims are subject, exp = now + ACCESS_TOKEN_EXPIRE_MINUTES,
iat = now and the externally generated unique jti. -/
def create_access_token (sub : Nat) (now : Nat) (jti : Nat) : Tok :=
  .jwt { sub := sub, exp := now + ACCESS_TOKEN_EXPIRE_MINUTES,
         iat := now, jti := jti }

/-- Response dictionary of create_tokens_for_user. -/
structure TokenPair where
  access_token : Tok
  token_type : String
  refresh_token : Tok
  expires_in : Nat
  deriving Repr, DecidableEq

/-- Embedding of create_tokens_for_user: mints an access token and persists a
fresh refresh token row. -/
def create_tokens_for_user (db : DB) (now : Nat) (jti : Nat) (fresh : Tok)
    (user : User) : TokenPair × DB :=
  let access_token := create_access_token user.id now jti
  let (row, db1) := RefreshTokenRepository.create db user.id now fresh
  ({ access_token := access_token
     token_type := "bearer"
     refresh_token := row.token
     expires_in := ACCESS_TOKEN_EXPIRE_MINUTES * 60 }, db1)

/-- Errors raised by get_current_user (HTTP 401 in the source). -/
inductive GetUserError where
  | tokenRevoked
  | couldNotValidateCredentials
  deriving Repr, DecidableEq

/-- Embedding of get_current_user: blacklist check first, then jwt.decode,
then user lookup by the sub claim. -/
def get_current_user (db : DB) (now : Nat) (token : Tok) :
    Except GetUserError User :=
  if TokenBlacklistRepository.is_blacklisted db token then
    .error .tokenRevoked
  else
    match jwtDecode now token with
    | none => .error .couldNotValidateCredentials
    | some payload =>
      match user_repository.get db payload.sub with
      | none => .error .couldNotValidateCredentials
      | some user => .ok user

/-- Errors raised by refresh_access_token (HTTP 401 in the source). -/
inductive RefreshError where
  | invalidRefreshToken
  | refreshTokenExpired
  | userNotFoundOrInactive
  deriving Repr, DecidableEq

/-- Embedding of refresh_access_token: looks the presented token up among
non-revoked rows, rejects absent/expired/inactive-owner cases (revoking the
row on the latter two), and otherwise revokes the presented row and mints a
new access/refresh pair.  The resulting state is returned alongside the
outcome because the error paths also commit their revocations. -/
def refresh_access_token (db : DB) (now : Nat) (jti : Nat) (fresh : Tok)
    (refresh_token : Tok) : Except RefreshError TokenPair × DB :=
  match RefreshTokenRepository.get_by_token db refresh_token with
  | none => (.error .invalidRefreshToken, db)
  | some db_token =>
    if db_token.is_expired now then
      let (_, db1) := RefreshTokenRepository.revoke db refresh_token
      (.error .refreshTokenExpired, db1)
    else
      match user_repository.get db db_token.user_id with
      | none =>
        let (_, db1) := RefreshTokenRepository.revoke db refresh_token
        (.error .userNotFoundOrInactive, db1)
      | some user =>
        if !user.is_active then
          let (_, db1) := RefreshTokenRepository.revoke db refresh_token
          (.error .userNotFoundOrInactive, db1)
        else
          let (_, db1) := RefreshTokenRepository.revoke db refresh_token
          let (pair, db2) := create_tokens_for_user db1 now jti fresh user
          (.ok pair, db2)

/-- Errors raised by revoke_token (HTTP 400 in the source). -/
inductive RevokeError where
  | invalidToken
  | invalidTokenType
  deriving Repr, DecidableEq

/-- Embedding of revoke_token: for token_type "access", decodes the token to
recover its expiry and inserts a blacklist row keyed by the full token string
(logging when a user id is supplied); for "refresh", revokes the ledger row;
otherwise rejects the token type. -/
def revoke_token (db : DB) (now : Nat) (token : Tok) (token_type : String)
    (user_id : Option Nat) : Except RevokeError DB :=
  if token_type == "access" then
    match jwtDecode now token with
    | none => .error .invalidToken
    | some payload =>
      let db1 := TokenBlacklistRepository.create db token token_type payload.exp
      match user_id with
      | some uid => .ok (log_activity db1 (some uid) "token_revoked" "token"
          none (some "Access token revoked"))
      | none => .ok db1
  else if token_type == "refresh" then
    let (_, db1) := RefreshTokenRepository.revoke db token
    match user_id with
    | some uid => .ok (log_activity db1 (some uid) "token_revoked" "token"
        none (some "Refresh token revoked"))
    | none => .ok db1
  else .error .invalidTokenType

/-- Embedding of revoke_all_user_tokens: revokes every refresh token of the
user and writes one audit row. -/
def revoke_all_user_tokens (db : DB) (user_id : Nat) : DB :=
  let (_, db1) := RefreshTokenRepository.revoke_all_for_user db user_id
  log_activity db1 (some user_id) "all_tokens_revoked" "token" none
    (some ("All tokens revoked for user " ++ toString user_id))

/-- Error raised by the login endpoint (HTTP 401 in the source). -/
inductive LoginError where
  | incorrectUsernameOrPassword
  deriving Repr, DecidableEq

/-- Embedding of the login endpoint: authenticates, rejects on None, otherwise
logs the login with client info and returns a fresh token pair.  No lockout
check appears on this path. -/
def login (db : DB) (now jti : Nat) (fresh : Tok) (username password : String)
    (ip ua : Option String) : Except LoginError TokenPair × DB :=
  match authenticate_user db username password with
  | (none, db1) => (.error .incorrectUsernameOrPassword, db1)
  | (some user, db1) =>
    let db2 := log_activity db1 (some user.id) "login" "user" (some user.id)
        (some "User logged in") ip ua
    let (pair, db3) := create_tokens_for_user db2 now jti fresh user
    (.ok pair, db3)

/-- Errors raised by the change-password endpoint (HTTP 400 in the source). -/
inductive ChangePwError where
  | incorrectCurrentPassword
  | invalidPassword (errors : List String)
  deriving Repr, DecidableEq

/-- Embedding of the change_password endpoint: verifies the current password,
validates the new one, stores the new hash, revokes all refresh tokens of the
account and logs; on failure it logs and raises.  The state is returned in all
cases because failure paths also commit their audit rows. -/
def change_password (db : DB) (current_user : User)
    (current_password new_password : String) :
    Except ChangePwError Unit × DB :=
  if !(verify_password current_password current_user.hashed_password) then
    (.error .incorrectCurrentPassword,
      log_activity db (some current_user.id) "password_change_failed" "user"
        (some current_user.id)
        (some "Failed password change attempt: incorrect current password"))
  else
    let v := validate_password new_password
    if !v.1 then
      (.error (.invalidPassword v.2),
        log_activity db (some current_user.id) "password_change_failed" "user"
          (some current_user.id)
          (some "Failed password change attempt: invalid new password"))
    else
      let hashed := hash_password new_password
      let db1 := user_repository.update_hashed_password db current_user.id hashed
      let db2 := revoke_all_user_tokens db1 current_user.id
      (.ok (), log_activity db2 (some current_user.id) "password_change" "user"
        (some current_user.id) (some "User changed password"))

/-- Embedding of the request_password_reset endpoint: for an unknown email it
returns early with 204 No Content; for a known email it proceeds to call
user_repository.create_password_reset_token, an attribute UserRepository does
not define, so the handler raises AttributeError (surfacing as an HTTP 500)
before any further effect.  The unreachable remainder of the handler is not
modelled. -/
def request_password_reset (db : DB) (email : String) : Except PyError DB :=
  match user_repository.get_by_email db email with
  | none => .ok db
  | some _user => do
    let _ ← userRepositoryGetAttr "create_password_reset_token"
    .ok db

/-! ## Concrete fixtures for closed witnesses and counterexamples -/

/-- A non-admin, non-manager role holding one role_permission link row. -/
def salesRole : Role :=
  { name := "sales", permissions := [{ role_id := 1, permission_id := 1 }] }

/-- User holding only the sales role. -/
def salesUser : User :=
  { id := 2, username := "sam", email := "sam@example.com",
    hashed_password := hash_password "Str0ng!Pw", is_active := true,
    login_attempts := 0, locked_until := none, last_login := none,
    roles := [salesRole] }

/-- Active account with no roles. -/
def alice : User :=
  { id := 1, username := "alice", email := "alice@example.com",
    hashed_password := hash_password "Str0ng!Pw", is_active := true,
    login_attempts := 0, locked_until := none, last_login := none,
    roles := [] }

/-- Locked variant of alice: counter at the threshold, lock in the future. -/
def aliceLocked : User :=
  { alice with login_attempts := 5, locked_until := some 1000 }

/-- State holding alice and one live refresh-token row. -/
def db0 : DB :=
  { users := [alice]
    refresh_tokens :=
      [{ token := .raw "rt1", user_id := 1, expires_at := 100000,
         is_revoked := false }]
    blacklist := []
    audit_log := [] }

/-- Same live row owned by a different account, for the C8 counterexample. -/
def db1 : DB :=
  { users := []
    refresh_tokens :=
      [{ token := .raw "rt1", user_id := 1, expires_at := 100,
         is_revoked := false }]
    blacklist := []
    audit_log := [] }

/-- Same as db1 except the owning account id. -/
def db2 : DB :=
  { db1 with refresh_tokens :=
      [{ token := .raw "rt1", user_id := 2, expires_at := 100,
         is_revoked := false }] }

/-- Number of rows a revoke-style call affects on a state: the non-revoked
rows carrying the given token value. -/
def affectedRows (db : DB) (t : Tok) : Nat :=
  (db.refresh_tokens.filter (fun r => r.token == t && !r.is_revoked)).length

/-- Number of rows revoke_all_for_user affects: the non-revoked rows of the
account. -/
def affectedRowsOfUser (db : DB) (uid : Nat) : Nat :=
  (db.refresh_tokens.filter (fun r => r.user_id == uid && !r.is_revoked)).length

/-- Object outside the seven enumerated resource types. -/
def widgetObj : ObjRecord :=
  { tablename := "widget", owner_id := none, created_by := none,
    protected_attr := none }

/-- Structurally valid access token: subject alice, expiry 50, issued at 0. -/
def tAcc : Tok := .jwt { sub := 1, exp := 50, iat := 0, jti := 7 }

/-- Five consecutive failed logins for alice (wrong password each time). -/
def fiveFailed (db : DB) : DB :=
  (authenticate_user
    (authenticate_user
      (authenticate_user
        (authenticate_user
          (authenticate_user db "alice" "wrong").2
          "alice" "wrong").2
        "alice" "wrong").2
      "alice" "wrong").2
    "alice" "wrong").2

/-- Expected response of the first rotation of rt1 in db0 at time 0. -/
def pair0 : TokenPair :=
  { access_token := .jwt { sub := 1, exp := 30, iat := 0, jti := 5 }
    token_type := "bearer"
    refresh_token := .raw "rt2"
    expires_in := 1800 }

/-- Expected state after that rotation: rt1 revoked, rt2 live. -/
def db0rot : DB :=
  { users := [alice]
    refresh_tokens :=
      [{ token := .raw "rt1", user_id := 1, expires_at := 100000,
         is_revoked := true },
       { token := .raw "rt2", user_id := 1, expires_at := 43200,
         is_revoked := false }]
    blacklist := []
    audit_log := [] }

/-- State holding only the locked alice. -/
def dbLocked : DB :=
  { users := [aliceLocked], refresh_tokens := [], blacklist := [],
    audit_log := [] }

/-- Account holding the admin role and no explicit permission grants. -/
def adminUser : User :=
  { alice with
    id := 3
    username := "root"
    email := "root@example.com"
    roles := [{ name := "admin", permissions := [] }] }

/-- Expected state after revoking the access token tAcc in db0 on behalf of
user 1: one blacklist row and one audit row appended. -/
def dbRevoked : DB :=
  { users := [alice]
    refresh_tokens :=
      [{ token := .raw "rt1", user_id := 1, expires_at := 100000,
         is_revoked := false }]
    blacklist := [{ token := tAcc, token_type := "access", expires_at := 50,
                    is_revoked := true }]
    audit_log := [{ user_id := some 1, action := "token_revoked",
                    resource_type := "token", resource_id := none,
                    descr := some "Access token revoked", ip_address := none,
                    user_agent := none }] }

deriving instance DecidableEq for Except

/-! ## Helper lemmas about the refresh-token ledger -/

/-- Helper: the row returned by revokeFirst is the first non-revoked match,
with its flag set. -/
theorem revokeFirst_fst (l : List RefreshToken) (t : Tok) :
    (RefreshTokenRepository.revokeFirst l t).1
      = (l.find? (fun r => r.token == t && !r.is_revoked)).map
          (fun r => { r with is_revoked := true }) := by
  induction l with
  | nil => rfl
  | cons r rest ih =>
    by_cases h : (r.token == t && !r.is_revoked) = true
    · simp [RefreshTokenRepository.revokeFirst, h, List.find?_cons_of_pos]
    · have hfind : List.find? (fun r => r.token == t && !r.is_revoked) (r :: rest)
          = List.find? (fun r => r.token == t && !r.is_revoked) rest :=
        List.find?_cons_of_neg _ (by simpa using h)
      rw [hfind, ← ih]
      simp [RefreshTokenRepository.revokeFirst, h]

/-- Helper: when token values are pairwise distinct, after revokeFirst every
row carrying the presented token value is revoked. -/
theorem revokeFirst_marks (l : List RefreshToken) (t : Tok)
    (hnd : (l.map (fun r => r.token)).Nodup) :
    ∀ r ∈ (RefreshTokenRepository.revokeFirst l t).2,
      r.token = t → r.is_revoked = true := by
  induction l with
  | nil => simp [RefreshTokenRepository.revokeFirst]
  | cons r rest ih =>
    simp only [List.map_cons, List.nodup_cons] at hnd
    obtain ⟨hnotin, hnd2⟩ := hnd
    by_cases h : (r.token == t && !r.is_revoked) = true
    · have hrt : r.token = t := by
        have := (Bool.and_eq_true _ _).mp h
        exact beq_iff_eq.mp this.1
      intro x hx hxt
      simp only [RefreshTokenRepository.revokeFirst, h, if_true, List.mem_cons] at hx
      rcases hx with rfl | hx
      · rfl
      · exfalso
        apply hnotin
        rw [hrt, ← hxt]
        exact List.mem_map_of_mem _ hx
    · intro x hx hxt
      simp only [RefreshTokenRepository.revokeFirst, h, if_false, Bool.false_eq_true,
        List.mem_cons] at hx
      rcases hx with rfl | hx
      · by_cases hb : x.token = t
        · have : ¬ (!x.is_revoked) = true := by
            intro hrev
            exact h (by simp [hb, hrev])
          simpa using this
        · exact absurd hxt hb
      · exact ih hnd2 x hx hxt

/-- Helper: revokeFirst is the identity when no row matches. -/
theorem revokeFirst_of_none (l : List RefreshToken) (t : Tok)
    (h : ∀ r ∈ l, (r.token == t && !r.is_revoked) = false) :
    RefreshTokenRepository.revokeFirst l t = (none, l) := by
  induction l with
  | nil => rfl
  | cons r rest ih =>
    have hr := h r (by simp)
    simp [RefreshTokenRepository.revokeFirst, hr,
      ih (fun x hx => h x (List.mem_cons_of_mem _ hx))]

/-- Helper: rows that are revoked whenever they carry the token value never
satisfy the lookup predicate. -/
theorem marked_pred_false (l : List RefreshToken) (t : Tok)
    (h : ∀ r ∈ l, r.token = t → r.is_revoked = true) :
    ∀ r ∈ l, (r.token == t && !r.is_revoked) = false := by
  intro r hr
  by_cases hb : r.token = t
  · simp [hb, h r hr hb]
  · simp [hb]

/-- Helper: the state component of revoke, spelled through revokeFirst. -/
theorem revoke_snd (db : DB) (t : Tok) :
    (RefreshTokenRepository.revoke db t).2
      = { db with refresh_tokens :=
            (RefreshTokenRepository.revokeFirst db.refresh_tokens t).2 } := rfl

/-- Helper: after revoke_all_for_user, every row of the account is revoked. -/
theorem revoke_all_marks (db : DB) (uid : Nat) :
    ∀ r ∈ (RefreshTokenRepository.revoke_all_for_user db uid).2.refresh_tokens,
      r.user_id = uid → r.is_revoked = true := by
  intro r hr hru
  simp only [RefreshTokenRepository.revoke_all_for_user, List.mem_map] at hr
  obtain ⟨x, hx, hfx⟩ := hr
  subst hfx
  by_cases h : (x.user_id == uid && !x.is_revoked) = true
  · simp [h]
  · rw [if_neg h] at hru ⊢
    cases hrev : x.is_revoked with
    | true => rfl
    | false => exact absurd (by simp [hru, hrev]) h

/-- Helper: on a list whose rows of the account are all revoked, the marking
map is the identity and the filter of live rows is empty. -/
theorem mark_noop (uid : Nat) (l : List RefreshToken)
    (h : ∀ r ∈ l, r.user_id = uid → r.is_revoked = true) :
    l.map (fun r => if r.user_id == uid && !r.is_revoked then
        { r with is_revoked := true } else r) = l
    ∧ l.filter (fun r => r.user_id == uid && !r.is_revoked) = [] := by
  induction l with
  | nil => exact ⟨rfl, rfl⟩
  | cons r rest ih =>
    have hr : (r.user_id == uid && !r.is_revoked) = false := by
      by_cases hu : r.user_id = uid
      · simp [hu, h r (by simp) hu]
      · simp [hu]
    obtain ⟨h1, h2⟩ := ih (fun x hx => h x (List.mem_cons_of_mem _ hx))
    constructor
    · rw [List.map_cons, h1, if_neg (by simp [hr])]
    · rw [List.filter_cons, hr]
      simpa using h2

/-- Helper: revoke_all_for_user is idempotent on states it has produced. -/
theorem revoke_all_idem (db : DB) (uid : Nat) :
    RefreshTokenRepository.revoke_all_for_user
        (RefreshTokenRepository.revoke_all_for_user db uid).2 uid
      = (0, (RefreshTokenRepository.revoke_all_for_user db uid).2) := by
  obtain ⟨h1, h2⟩ := mark_noop uid
      (RefreshTokenRepository.revoke_all_for_user db uid).2.refresh_tokens
      (revoke_all_marks db uid)
  set X := (RefreshTokenRepository.revoke_all_for_user db uid).2 with hX
  show RefreshTokenRepository.revoke_all_for_user X uid = (0, X)
  unfold RefreshTokenRepository.revoke_all_for_user
  rw [h1, h2]
  rfl

/-- Helper: updating one user's stored hash commutes with lookup by id. -/
theorem get_update_hashed (db : DB) (uid : Nat) (hp : String) (i : Nat) :
    user_repository.get (user_repository.update_hashed_password db uid hp) i
      = (user_repository.get db i).map
          (fun u => if u.id == uid then { u with hashed_password := hp } else u) := by
  show (db.users.map
      (fun u => if u.id == uid then { u with hashed_password := hp } else u)).find?
        (fun u => u.id == i) = _
  rw [List.find?_map]
  have hfun : ((fun (u : User) => u.id == i) ∘
      (fun (u : User) => if u.id == uid then { u with hashed_password := hp } else u))
      = fun (u : User) => u.id == i := by
    funext u
    by_cases hu : (u.id == uid) = true <;> simp [Function.comp, hu]
  rw [hfun]
  rfl

/-! ## Claim theorems -/

/-- C1: exchanging a refresh token twice with the same value succeeds at most
once — a successful refresh_access_token marks every row carrying the
presented value revoked while minting its replacement, and a second call with
that value fails with the invalid-refresh-token error (token values in the
ledger are pairwise distinct and the freshly minted value differs from the
presented one, as guaranteed by the high-entropy generator and the unique
index on the token column). -/
theorem C1_refresh_exchange_single_use :
    ∀ (db : DB) (now jti : Nat) (fresh rt : Tok) (pair : TokenPair) (db2 : DB)
      (now2 jti2 : Nat) (fresh2 : Tok),
      (db.refresh_tokens.map (fun r => r.token)).Nodup →
      fresh ≠ rt →
      refresh_access_token db now jti fresh rt = (.ok pair, db2) →
      (∀ r ∈ db2.refresh_tokens, r.token = rt → r.is_revoked = true)
      ∧ (refresh_access_token db2 now2 jti2 fresh2 rt).1
          = .error .invalidRefreshToken := by
  intro db now jti fresh rt pair db2 now2 jti2 fresh2 hnd hne hok
  cases hg : RefreshTokenRepository.get_by_token db rt with
  | none => simp only [refresh_access_token, hg] at hok; simp at hok
  | some db_token =>
    simp only [refresh_access_token, hg] at hok
    split at hok
    · simp at hok
    · cases hu : user_repository.get db db_token.user_id with
      | none => simp only [hu] at hok; simp at hok
      | some user =>
        simp only [hu] at hok
        split at hok
        · simp at hok
        · have hdb2 : (create_tokens_for_user
              (RefreshTokenRepository.revoke db rt).2 now jti fresh user).2 = db2 :=
            congrArg Prod.snd hok
          have hrows : db2.refresh_tokens
              = (RefreshTokenRepository.revokeFirst db.refresh_tokens rt).2
                ++ [{ token := fresh, user_id := user.id,
                      expires_at := now + REFRESH_TOKEN_EXPIRE_DAYS * 24 * 60,
                      is_revoked := false }] := by
            rw [← hdb2]; rfl
          have hmark : ∀ r ∈ db2.refresh_tokens, r.token = rt → r.is_revoked = true := by
            intro r hr hrt
            rw [hrows] at hr
            rcases List.mem_append.mp hr with h1 | h1
            · exact revokeFirst_marks db.refresh_tokens rt hnd r h1 hrt
            · simp only [List.mem_singleton] at h1
              subst h1
              exact absurd hrt hne
          refine ⟨hmark, ?_⟩
          have hfind : RefreshTokenRepository.get_by_token db2 rt = none :=
            List.find?_eq_none.mpr (by
              intro x hx
              have hpf := marked_pred_false _ rt hmark x hx
              simp [hpf])
          unfold refresh_access_token
          rw [hfind]

/-- C1 witness: rotating rt1 in db0 yields db0rot, and replaying rt1 against
db0rot fails with the invalid-refresh-token error. -/
theorem C1_refresh_exchange_single_use_witness :
    (refresh_access_token db0rot 1 6 (Tok.raw "rt3") (Tok.raw "rt1")).1
      = .error .invalidRefreshToken :=
  (C1_refresh_exchange_single_use db0 0 5 (Tok.raw "rt2") (Tok.raw "rt1")
    pair0 db0rot 1 6 (Tok.raw "rt3") (by decide) (by decide) (by decide)).2

/-- C2: the login path never enforces the lockout machine.  Authentication
leaves the user table unchanged (so failed attempts never increment the
counter nor set a lock), and a user whose account is locked still
authenticates and receives tokens when the password is correct; concretely,
five failed logins for alice leave her row untouched and the sixth attempt
with the correct password succeeds. -/
theorem C2_login_path_ignores_lockout :
    (∀ (db : DB) (username password : String),
        (authenticate_user db username password).2.users = db.users)
    ∧ (∀ (db : DB) (username password : String) (u : User) (now : Nat),
        user_repository.get_by_username db username = some u →
        verify_password password u.hashed_password = true →
        User.is_locked now u = true →
        (authenticate_user db username password).1 = some u)
    ∧ (∀ (db : DB) (username password : String) (u : User)
          (now jti : Nat) (fresh : Tok) (ip ua : Option String),
        user_repository.get_by_username db username = some u →
        verify_password password u.hashed_password = true →
        User.is_locked now u = true →
        (login db now jti fresh username password ip ua).1.isOk = true)
    ∧ (fiveFailed db0).users = db0.users
    ∧ (authenticate_user (fiveFailed db0) "alice" "Str0ng!Pw").1 = some alice := by
  refine ⟨?_, ?_, ?_, by decide, by decide⟩
  · intro db username password
    unfold authenticate_user
    cases h : user_repository.get_by_username db username with
    | none => rfl
    | some u =>
      by_cases hv : verify_password password u.hashed_password = true <;>
        simp [hv, log_activity]
  · intro db username password u now hu hv _
    simp [authenticate_user, hu, hv]
  · intro db username password u now jti fresh ip ua hu hv _
    simp [login, authenticate_user, hu, hv, Except.isOk, Except.toBool]

/-- C2 witness: the locked alice authenticates successfully with the correct
password. -/
theorem C2_login_path_ignores_lockout_witness :
    (authenticate_user dbLocked "alice" "Str0ng!Pw").1 = some aliceLocked :=
  C2_login_path_ignores_lockout.2.1 dbLocked "alice" "Str0ng!Pw" aliceLocked 0
    (by decide) (by decide) (by decide)

/-- C3: revoking a structurally valid access token succeeds, and presenting
that token to get_current_user afterwards is rejected with the token-revoked
error at every later instant, even though the token itself still decodes. -/
theorem C3_revoked_access_token_rejected :
    ∀ (db : DB) (now now2 : Nat) (t : Tok) (c : JwtClaims) (uid : Option Nat),
      jwtDecode now t = some c →
      (revoke_token db now t "access" uid).isOk = true
      ∧ (∀ db2, revoke_token db now t "access" uid = .ok db2 →
          TokenBlacklistRepository.is_blacklisted db2 t = true
          ∧ get_current_user db2 now2 t = .error .tokenRevoked) := by
  intro db now now2 t c uid hdec
  have key : ∀ db2 : DB,
      TokenBlacklistRepository.is_blacklisted db2 t = true →
      get_current_user db2 now2 t = .error .tokenRevoked := by
    intro db2 hb
    simp [get_current_user, hb]
  constructor
  · cases uid <;> simp [revoke_token, hdec, Except.isOk, Except.toBool]
  · intro db2 heq
    cases uid with
    | none =>
      simp [revoke_token, hdec] at heq
      subst heq
      refine ⟨?_, key _ ?_⟩ <;>
        simp [TokenBlacklistRepository.is_blacklisted, TokenBlacklistRepository.create]
    | some uidv =>
      simp [revoke_token, hdec] at heq
      subst heq
      refine ⟨?_, key _ ?_⟩ <;>
        simp [TokenBlacklistRepository.is_blacklisted, TokenBlacklistRepository.create,
          log_activity]

/-- C3 witness: after revoking tAcc in db0 the resulting state dbRevoked
blacklists it and get_current_user rejects it as revoked while it is still
structurally valid. -/
theorem C3_revoked_access_token_rejected_witness :
    TokenBlacklistRepository.is_blacklisted dbRevoked tAcc = true
    ∧ get_current_user dbRevoked 10 tAcc = .error .tokenRevoked :=
  (C3_revoked_access_token_rejected db0 0 10 tAcc
    { sub := 1, exp := 50, iat := 0, jti := 7 } (some 1) (by decide)).2
    dbRevoked (by decide)

/-- C4: change_password with a correct current password and a policy-compliant
new password succeeds, revokes every refresh token of the account, leaves the
access-token blacklist unchanged, and leaves the accept/reject verdict of
get_current_user on every access token at every instant exactly as before —
the non-immediate-revocation property for already-issued access tokens. -/
theorem C4_change_password_revokes_refresh_only :
    ∀ (db : DB) (u : User) (curPw newPw : String),
      verify_password curPw u.hashed_password = true →
      (validate_password newPw).1 = true →
      (change_password db u curPw newPw).1 = .ok ()
      ∧ (∀ r ∈ (change_password db u curPw newPw).2.refresh_tokens,
            r.user_id = u.id → r.is_revoked = true)
      ∧ (change_password db u curPw newPw).2.blacklist = db.blacklist
      ∧ (∀ (now : Nat) (t : Tok),
          (get_current_user (change_password db u curPw newPw).2 now t).isOk
            = (get_current_user db now t).isOk) := by
  intro db u curPw newPw hver hval
  have hcp : change_password db u curPw newPw
      = (.ok (), log_activity (revoke_all_user_tokens
          (user_repository.update_hashed_password db u.id (hash_password newPw))
          u.id) (some u.id) "password_change" "user" (some u.id)
          (some "User changed password")) := by
    simp [change_password, hver, hval]
  rw [hcp]
  refine ⟨rfl, ?_, rfl, ?_⟩
  · intro r hr hru
    exact revoke_all_marks
      (user_repository.update_hashed_password db u.id (hash_password newPw))
      u.id r hr hru
  · intro now t
    by_cases hb : TokenBlacklistRepository.is_blacklisted db t = true
    · have hb2 : TokenBlacklistRepository.is_blacklisted
          (log_activity (revoke_all_user_tokens
            (user_repository.update_hashed_password db u.id (hash_password newPw))
            u.id) (some u.id) "password_change" "user" (some u.id)
            (some "User changed password")) t = true := hb
      simp [get_current_user, hb, hb2]
    · have hb2 : ¬ TokenBlacklistRepository.is_blacklisted
          (log_activity (revoke_all_user_tokens
            (user_repository.update_hashed_password db u.id (hash_password newPw))
            u.id) (some u.id) "password_change" "user" (some u.id)
            (some "User changed password")) t = true := hb
      cases hd : jwtDecode now t with
      | none => simp [get_current_user, hb, hb2, hd]
      | some payload =>
        have hget : user_repository.get
            (log_activity (revoke_all_user_tokens
              (user_repository.update_hashed_password db u.id (hash_password newPw))
              u.id) (some u.id) "password_change" "user" (some u.id)
              (some "User changed password")) payload.sub
            = (user_repository.get db payload.sub).map
                (fun x => if x.id == u.id then
                    { x with hashed_password := hash_password newPw } else x) :=
          get_update_hashed db u.id (hash_password newPw) payload.sub
        cases hgu : user_repository.get db payload.sub with
        | none => simp [get_current_user, hb, hb2, hd, hget, hgu]
        | some x => simp [get_current_user, hb, hb2, hd, hget, hgu, Except.isOk,
            Except.toBool]

/-- C4 witness: alice changes her password in db0; the call succeeds and the
blacklist is unchanged. -/
theorem C4_change_password_revokes_refresh_only_witness :
    (change_password db0 alice "Str0ng!Pw" "N3wStr0ng!Pw").1 = .ok ()
    ∧ (change_password db0 alice "Str0ng!Pw" "N3wStr0ng!Pw").2.blacklist
        = db0.blacklist :=
  have h := C4_change_password_revokes_refresh_only db0 alice "Str0ng!Pw"
    "N3wStr0ng!Pw" (by decide) (by decide)
  ⟨h.1, h.2.2.1⟩

/-- C5: has_permission is unconditionally true for a holder of the admin role
and false for an account with no roles, but for any other account whose roles
hold at least one permission link it raises AttributeError instead of
deciding, because the loop reads a name attribute that the RolePermission
link entity does not define; concretely the sales user's read check on
contacts crashes. -/
theorem C5_has_permission_crashes_on_links :
    (∀ (u : User) (r : ResourceType) (a : ActionType),
        (u.roles.any fun role => role.name == "admin") = true →
        has_permission u r a = .ok true)
    ∧ (∀ (u : User) (r : ResourceType) (a : ActionType),
        u.roles = [] → has_permission u r a = .ok false)
    ∧ has_permission salesUser .CONTACT .READ
        = .error (.attributeError "RolePermission" "name") := by
  refine ⟨?_, ?_, by decide⟩
  · intro u r a h
    simp [has_permission, h]
  · intro u r a h
    simp [has_permission, h, roleLoop]

/-- C5 witness: the admin user is allowed everything and the roleless alice is
denied. -/
theorem C5_has_permission_crashes_on_links_witness :
    has_permission adminUser .LEAD .DELETE = .ok true
    ∧ has_permission alice .LEAD .DELETE = .ok false :=
  ⟨C5_has_permission_crashes_on_links.1 adminUser .LEAD .DELETE (by decide),
   C5_has_permission_crashes_on_links.2.1 alice .LEAD .DELETE rfl⟩

/-- C6: validate_password checks minimum length 8 and presence of uppercase,
lowercase, digit and special characters, reporting every violated rule;
"Abcdef1!" is ok with zero violations, and "abc" reports exactly the four
violations for length, uppercase, digit and special. -/
theorem C6_validate_password_reports_every_rule :
    (∀ p : String,
      ((validate_password p).1 = true ↔ (validate_password p).2 = [])
      ∧ ("Password must be at least 8 characters long" ∈ (validate_password p).2
          ↔ p.length < MIN_LENGTH)
      ∧ ("Password must contain at least one uppercase letter" ∈ (validate_password p).2
          ↔ (p.toList.any fun c => c.isUpper) = false)
      ∧ ("Password must contain at least one lowercase letter" ∈ (validate_password p).2
          ↔ (p.toList.any fun c => c.isLower) = false)
      ∧ ("Password must contain at least one digit" ∈ (validate_password p).2
          ↔ (p.toList.any fun c => c.isDigit) = false)
      ∧ ("Password must contain at least one special character" ∈ (validate_password p).2
          ↔ (p.toList.any fun c => SPECIAL_CHARS.toList.contains c) = false))
    ∧ validate_password "Abcdef1!" = (true, [])
    ∧ (validate_password "abc").2 =
        ["Password must be at least 8 characters long",
         "Password must contain at least one uppercase letter",
         "Password must contain at least one digit",
         "Password must contain at least one special character"] := by
  refine ⟨fun p => ?_, by decide, by decide⟩
  simp only [validate_password, REQUIRE_UPPERCASE, REQUIRE_LOWERCASE, REQUIRE_DIGITS,
    REQUIRE_SPECIAL_CHARS, Bool.true_and]
  split_ifs <;> simp_all [List.mem_append, MIN_LENGTH]

/-- C6 witness: the length rule fires on the password abc exactly because it
is shorter than 8. -/
theorem C6_validate_password_reports_every_rule_witness :
    "Password must be at least 8 characters long" ∈ (validate_password "abc").2
      ↔ "abc".length < MIN_LENGTH :=
  (C6_validate_password_reports_every_rule.1 "abc").2.1

/-- C7: the account-state invariant — lock-until set implies the counter is at
least the threshold 5 — is preserved by increment_login_attempts and
re-established by reset_login_attempts and record_login, and both of the
latter reset the counter to 0 and clear the lock. -/
theorem C7_account_guard_invariant :
    (∀ (u : User) (now : Nat), lockInvariant u →
        lockInvariant (User.increment_login_attempts now u))
    ∧ (∀ u : User, lockInvariant (User.reset_login_attempts u)
        ∧ (User.reset_login_attempts u).login_attempts = 0
        ∧ (User.reset_login_attempts u).locked_until = none)
    ∧ (∀ (u : User) (now : Nat), lockInvariant (User.record_login now u)
        ∧ (User.record_login now u).login_attempts = 0
        ∧ (User.record_login now u).locked_until = none) := by
  refine ⟨?_, ?_, ?_⟩
  · intro u now h t ht
    simp only [User.increment_login_attempts] at ht ⊢
    split at ht
    · next hle => simpa using hle
    · next hlt =>
      have := h t ht
      omega
  · intro u
    exact ⟨fun t ht => by simp [User.reset_login_attempts] at ht, rfl, rfl⟩
  · intro u now
    exact ⟨fun t ht => by simp [User.record_login, User.reset_login_attempts] at ht,
      rfl, rfl⟩

/-- C7 witness: incrementing the locked alice keeps the counter at or above
the threshold for the newly written lock timestamp. -/
theorem C7_account_guard_invariant_witness :
    5 ≤ (User.increment_login_attempts 0 aliceLocked).login_attempts :=
  C7_account_guard_invariant.1 aliceLocked 0 (fun t ht => by decide) 30 (by decide)

/-- C8 counterexample: revoke does not return the count of rows affected —
two states in which a revoke call affects exactly the same number of rows
(one each) yield different return values, because revoke returns the revoked
row object (whose user_id differs between the two states) rather than a
count. -/
theorem C8_revoke_returns_row_not_count :
    (RefreshTokenRepository.revoke db1 (Tok.raw "rt1")).1
      ≠ (RefreshTokenRepository.revoke db2 (Tok.raw "rt1")).1
    ∧ affectedRows db1 (Tok.raw "rt1") = affectedRows db2 (Tok.raw "rt1") :=
  ⟨by decide, by decide⟩

/-- C8 amended: revoke marks the matching non-revoked row revoked and returns
that row (or None when there is no live match) rather than a count, and
revoke_all_for_user marks every live row of the account revoked and returns
the count affected; both are idempotent — a second application leaves all
rows unchanged, with revoke returning None and revoke_all_for_user returning
0 (for revoke, under the ledger's unique-token-value index). -/
theorem C8_revocation_idempotent :
    (∀ (db : DB) (t : Tok),
        (RefreshTokenRepository.revoke db t).1
          = (RefreshTokenRepository.get_by_token db t).map
              (fun r => { r with is_revoked := true }))
    ∧ (∀ (db : DB) (t : Tok),
        (db.refresh_tokens.map (fun r => r.token)).Nodup →
        (∀ r ∈ (RefreshTokenRepository.revoke db t).2.refresh_tokens,
            r.token = t → r.is_revoked = true)
        ∧ RefreshTokenRepository.revoke (RefreshTokenRepository.revoke db t).2 t
            = (none, (RefreshTokenRepository.revoke db t).2))
    ∧ (∀ (db : DB) (uid : Nat),
        (RefreshTokenRepository.revoke_all_for_user db uid).1
          = affectedRowsOfUser db uid
        ∧ (∀ r ∈ (RefreshTokenRepository.revoke_all_for_user db uid).2.refresh_tokens,
            r.user_id = uid → r.is_revoked = true)
        ∧ RefreshTokenRepository.revoke_all_for_user
              (RefreshTokenRepository.revoke_all_for_user db uid).2 uid
            = (0, (RefreshTokenRepository.revoke_all_for_user db uid).2)) := by
  refine ⟨?_, ?_, ?_⟩
  · intro db t
    simpa [RefreshTokenRepository.revoke, RefreshTokenRepository.get_by_token]
      using revokeFirst_fst db.refresh_tokens t
  · intro db t hnd
    have hm : ∀ r ∈ (RefreshTokenRepository.revokeFirst db.refresh_tokens t).2,
        r.token = t → r.is_revoked = true :=
      revokeFirst_marks db.refresh_tokens t hnd
    have hnone := revokeFirst_of_none _ _ (marked_pred_false _ t hm)
    refine ⟨fun r hr => hm r hr, ?_⟩
    rw [revoke_snd db t]
    show RefreshTokenRepository.revoke _ t = _
    unfold RefreshTokenRepository.revoke
    rw [hnone]
  · intro db uid
    exact ⟨rfl, revoke_all_marks db uid, revoke_all_idem db uid⟩

/-- C8 witness: revoking rt1 in db1 twice leaves the state of the first
revocation unchanged and returns None. -/
theorem C8_revocation_idempotent_witness :
    RefreshTokenRepository.revoke
        (RefreshTokenRepository.revoke db1 (Tok.raw "rt1")).2 (Tok.raw "rt1")
      = (none, (RefreshTokenRepository.revoke db1 (Tok.raw "rt1")).2) :=
  (C8_revocation_idempotent.2.1 db1 (Tok.raw "rt1") (by decide)).2

/-- C9: request_password_reset does not return the same observable response
for existing and non-existing identifiers — for an unknown email it returns
the 204 success, but for a known email it calls the undefined repository
method create_password_reset_token and raises AttributeError (an HTTP 500),
so the caller can distinguish whether the account exists; concretely the
responses for alice's email and for a ghost email differ. -/
theorem C9_password_reset_reveals_account_existence :
    (∀ (db : DB) (email : String),
        user_repository.get_by_email db email = none →
        request_password_reset db email = .ok db)
    ∧ (∀ (db : DB) (email : String) (u : User),
        user_repository.get_by_email db email = some u →
        request_password_reset db email
          = .error (.attributeError "UserRepository" "create_password_reset_token"))
    ∧ (request_password_reset db0 "alice@example.com").isOk = false
    ∧ (request_password_reset db0 "ghost@example.com").isOk = true := by
  refine ⟨?_, ?_, by decide, by decide⟩
  · intro db email h
    simp [request_password_reset, h]
  · intro db email u h
    simp [request_password_reset, h, userRepositoryGetAttr, user_repository.attrs,
      Bind.bind, Except.bind]

/-- C9 witness: requesting a reset for alice's existing email raises the
AttributeError. -/
theorem C9_password_reset_reveals_account_existence_witness :
    request_password_reset db0 "alice@example.com"
      = .error (.attributeError "UserRepository" "create_password_reset_token") :=
  C9_password_reset_reveals_account_existence.2.1 db0 "alice@example.com" alice
    (by decide)

/-- C10: for a user holding neither the admin nor the manager role who is
neither owner nor creator of the object, has_object_permission raises
ValueError — rather than returning a deny decision — whenever the object's
declared table name is not one of the seven enumerated ResourceType values,
because the fallback constructs ResourceType from the table name. -/
theorem C10_object_permission_partial_on_unknown_table :
    ∀ (u : User) (obj : ObjRecord) (a : ActionType),
      (u.roles.any fun role => role.name == "admin") = false →
      (u.roles.any fun role => role.name == "manager") = false →
      (obj.owner_id == some u.id) = false →
      (obj.created_by == some u.id) = false →
      obj.tablename ∉ resourceTypeValues →
      has_object_permission u obj a
        = .error (.valueError (obj.tablename ++ " is not a valid ResourceType")) := by
  intro u obj a hadm hman howner hcreat htab
  simp only [resourceTypeValues, List.mem_cons, not_or] at htab
  obtain ⟨h1, h2, h3, h4, h5, h6, h7, -⟩ := htab
  simp [has_object_permission, hadm, hman, howner, hcreat, ResourceType.fromValue,
    h1, h2, h3, h4, h5, h6, h7, Bind.bind, Except.bind]

/-- C10 witness: the sales user's read check on an object whose table is
widget raises the ValueError. -/
theorem C10_object_permission_partial_on_unknown_table_witness :
    has_object_permission salesUser widgetObj .READ
      = .error (.valueError ("widget" ++ " is not a valid ResourceType")) :=
  C10_object_permission_partial_on_unknown_table salesUser widgetObj .READ
    (by decide) (by decide) (by decide) (by decide) (by decide)

end SalesAuto
